import Mathlib

/-!
Shallow embedding of the "diary buddy" application core:
the reconciliation pipeline `handleSend` (src/App.tsx), the
generation client `generateDiary` (src/services/diaryService.ts),
and the HTTP-backed record store (server.ts).

Modelling conventions:
* JavaScript strings are Lean `String`s; a possibly-`undefined` string
  field is `Option String`, and JS truthiness of a string is
  "present and non-empty".
* The SQLite store is a `ServerDB` value.  Entry rows are kept
  most-recent-first: `created_at` timestamps are modelled as a strictly
  increasing counter (single user, no concurrent writes), so prepending
  on insert is exactly the `ORDER BY created_at DESC` view used by
  `GET /api/entries`.
* The generation backend and the JSON parse in
  `JSON.parse(response.text || "{}")` are modelled at the level that
  decides control flow: the response text is absent, empty, invalid
  JSON (where `JSON.parse` throws), or valid JSON parsing to a
  `GenResult`.
* Store writes issued by the client (`savePreference`, `saveEntry`)
  may reject (network failure); a rejection propagates into the
  `catch` block of `handleSend`.  These external outcomes are the
  `Effects` oracle.
-/

set_option autoImplicit false

namespace Diary

/-- JS `String.prototype.trim`: strip leading and trailing whitespace
(modelled over ASCII whitespace via `Char.isWhitespace`). -/
def jsTrim (s : String) : String :=
  String.mk (((s.data.dropWhile Char.isWhitespace).reverse.dropWhile Char.isWhitespace).reverse)

/-- JS truthiness of a possibly-undefined string: present and non-empty. -/
def truthy : Option String → Bool
  | none => false
  | some s => !s.isEmpty

/-- A diary entry as the client sees it (interface `DiaryEntry` in
diaryService.ts): `id` and `created_at` are assigned by the store. -/
structure DiaryEntry where
  id : Option Nat := none
  content : String
  summary : String
  learning : String
  created_at : Option Nat := none
  deriving DecidableEq, Repr

/-- A row of the `entries` table (server.ts): `id` is the AUTOINCREMENT
primary key, `created_at` the insertion timestamp. -/
structure StoredEntry where
  id : Nat
  content : String
  summary : String
  learning : String
  created_at : Nat
  deriving DecidableEq, Repr

/-- The SQLite database of server.ts: the `entries` table (kept in the
descending-`created_at` order that `GET /api/entries` returns, see the
module comment) plus the `preferences` table as an association list
with unique keys. -/
structure ServerDB where
  entries : List StoredEntry
  nextId : Nat
  clock : Nat
  prefs : List (String × String)
  deriving DecidableEq, Repr

/-- Endpoint `POST /api/entries` (server.ts): inserts a row verbatim, assigning
the next id and timestamp, and returns the inserted id.  No field is
validated (the `NOT NULL` constraint on `content` is satisfied by any
string, empty included). -/
def postEntry (db : ServerDB) (content summary learning : String) : ServerDB × Nat :=
  ({ db with
      entries := ⟨db.nextId, content, summary, learning, db.clock⟩ :: db.entries,
      nextId := db.nextId + 1,
      clock := db.clock + 1 }, db.nextId)

/-- Endpoint `GET /api/entries` (server.ts): all entries, descending `created_at`. -/
def getEntries (db : ServerDB) : List StoredEntry :=
  db.entries

/-- SQLite `INSERT OR REPLACE` on an association list with a unique key:
the conflicting binding (if any) is removed and the new row inserted. -/
def upsertList (l : List (String × String)) (k v : String) : List (String × String) :=
  (l.filter fun kv => !(kv.1 == k)) ++ [(k, v)]

/-- Lookup in the preferences table. -/
def lookupList (l : List (String × String)) (k : String) : Option String :=
  (l.find? fun kv => kv.1 == k).map (·.2)

/-- Endpoint `POST /api/preferences` (server.ts): `INSERT OR REPLACE INTO
preferences (key, value)`. -/
def postPreference (db : ServerDB) (k v : String) : ServerDB :=
  { db with prefs := upsertList db.prefs k v }

/-- Endpoint `GET /api/preferences` (server.ts), read at one key: the rows are
reduced into a key-to-value object, so a lookup returns the value
stored for the key. -/
def getPreference (db : ServerDB) (k : String) : Option String :=
  lookupList db.prefs k

/-- The preference keys of the store are pairwise distinct. -/
def nodupKeys (l : List (String × String)) : Prop :=
  (l.map Prod.fst).Nodup

/-- The optional `updatedPreferences` object of the generation schema
(diaryService.ts): both fields are optional in the parsed JSON. -/
structure UpdatedPref where
  key : Option String := none
  value : Option String := none
  deriving DecidableEq, Repr

/-- The parsed generation result (responseSchema in diaryService.ts).
`JSON.parse` performs no required-field validation, so every field may
be absent. -/
structure GenResult where
  summary : Option String := none
  learning : Option String := none
  chatResponse : Option String := none
  updatedPreferences : Option UpdatedPref := none
  deriving DecidableEq, Repr

/-- The empty object `{}`: what `JSON.parse("{}")` yields. -/
def emptyGenResult : GenResult := {}

/-- The classification of `response.text` that decides
`JSON.parse(response.text || "{}")`: the text is `undefined`, the empty
string (both falsy, so `"{}"` is parsed instead), a non-empty string
that is not valid JSON (where `JSON.parse` throws), or a non-empty
string parsing to an object `r`. -/
inductive ResponseText
  | absent
  | emptyStr
  | invalidJson
  | validJson (r : GenResult)
  deriving DecidableEq, Repr

/-- Failure modes of `generateDiary`: the backend request rejected, or
`JSON.parse` threw on the response text. -/
inductive GenError
  | unavailable
  | parseError
  deriving DecidableEq, Repr

/-- The outcome of the backend call inside `generateDiary`: the request
threw, or it returned a response whose text is classified. -/
inductive BackendOutcome
  | unavailable
  | reply (t : ResponseText)
  deriving DecidableEq, Repr

/-- The tail of `generateDiary` (diaryService.ts line 103):
`return JSON.parse(response.text || "{}")`.  A falsy text is replaced
by `"{}"` and parses to the empty object; invalid JSON makes
`JSON.parse` throw, and that exception propagates to the caller;
valid JSON is returned as parsed, with no field validation. -/
def parseGenResponse : ResponseText → Except GenError GenResult
  | .absent => .ok emptyGenResult
  | .emptyStr => .ok emptyGenResult
  | .invalidJson => .error .parseError
  | .validJson r => .ok r

/-- The function `generateDiary` as seen by its caller: a rejected backend request
or a parse exception surface as an error; otherwise the parsed object. -/
def generateDiaryModel : BackendOutcome → Except GenError GenResult
  | .unavailable => .error .unavailable
  | .reply t => parseGenResponse t

/-- The variable `prefString` in `generateDiary`: every preference rendered as
`key: value`, joined by newlines. -/
def prefString (preferences : List (String × String)) : String :=
  String.intercalate "\n" (preferences.map fun kv => kv.1 ++ ": " ++ kv.2)

/-- The variable `historyString` in `generateDiary`: the first three entries of the
history (which is held most-recent-first), each rendered as
`Past Entry: summary\nLearning: learning`, joined by blank lines. -/
def historyString (history : List DiaryEntry) : String :=
  String.intercalate "\n\n"
    ((history.take 3).map fun h => "Past Entry: " ++ h.summary ++ "\nLearning: " ++ h.learning)

/-- A chat message role. -/
inductive Role
  | user
  | assistant
  deriving DecidableEq, Repr

/-- The `data` payload attached to an assistant message
(App.tsx line 91): the raw `summary` and `learning` fields of the
generation result. -/
structure AttachedData where
  summary : Option String
  learning : Option String
  deriving DecidableEq, Repr

/-- A message of the session's `messages` state.  `content` is
`Option String` because the code stores `result.chatResponse`, which
may be absent. -/
structure Msg where
  role : Role
  content : Option String
  data : Option AttachedData := none
  deriving DecidableEq, Repr

/-- The fixed fallback text of the `catch` block in `handleSend`. -/
def apologyText : String := "Oops, something went wrong. Can you try again?"

/-- The React state of `App` that `handleSend` reads and writes. -/
structure AppState where
  entries : List DiaryEntry
  preferences : List (String × String)
  input : String
  isLoading : Bool
  messages : List Msg
  deriving DecidableEq, Repr

/-- JS object spread `{...prev, [key]: value}`: replace the binding in
place if the key exists, else append it. -/
def objSet (m : List (String × String)) (k v : String) : List (String × String) :=
  if m.any (fun kv => kv.1 == k) then
    m.map fun kv => if kv.1 == k then (k, v) else kv
  else m ++ [(k, v)]

/-- External outcomes of one `handleSend` run: the backend outcome of
`generateDiary`, whether the `savePreference` and `saveEntry` fetches
reject, and the client clock used for the in-memory `created_at`. -/
structure Effects where
  backend : BackendOutcome
  savePrefFails : Bool
  saveEntryFails : Bool
  now : Nat
  deriving DecidableEq, Repr

/-- App.tsx lines 70-76: the preference pair that step 1 writes, when
`result.updatedPreferences` is present and both `key` and `value` are
truthy. -/
def prefPair (result : GenResult) : Option (String × String) :=
  match result.updatedPreferences with
  | none => none
  | some up =>
    match up.key, up.value with
    | some k, some v => if !k.isEmpty && !v.isEmpty then some (k, v) else none
    | _, _ => none

/-- The `catch` block of `handleSend` together with the `finally`:
append the fixed apology turn and clear the loading flag. -/
def appendCatch (st : AppState) (db : ServerDB) : AppState × ServerDB :=
  ({ st with
      messages := st.messages ++ [{ role := .assistant, content := some apologyText }],
      isLoading := false }, db)

/-- App.tsx lines 78-92 (entry creation and the assistant turn), run
after the preference step on the current state: if both `summary` and
`learning` are truthy, persist a new entry and prepend it to the
in-memory history (a rejected `saveEntry` jumps to the catch block);
then append the assistant turn with `content = result.chatResponse`
and `data` present when `result.summary` is truthy. -/
def entryAndTurnSteps (eff : Effects) (userMessage : String) (result : GenResult)
    (st : AppState) (db : ServerDB) : AppState × ServerDB :=
  let afterEntry : Except Unit (AppState × ServerDB) :=
    if truthy result.summary && truthy result.learning then
      if eff.saveEntryFails then .error ()
      else
        let s := result.summary.getD ""
        let l := result.learning.getD ""
        let inserted := postEntry db userMessage s l
        let newEntry : DiaryEntry :=
          { id := some inserted.2, content := userMessage, summary := s, learning := l,
            created_at := some eff.now }
        .ok ({ st with entries := newEntry :: st.entries }, inserted.1)
    else .ok (st, db)
  match afterEntry with
  | .error _ => appendCatch st db
  | .ok p =>
      let data : Option AttachedData :=
        if truthy result.summary then some ⟨result.summary, result.learning⟩ else none
      ({ p.1 with
          messages := p.1.messages ++ [{ role := .assistant, content := result.chatResponse, data := data }],
          isLoading := false }, p.2)

/-- The function `handleSend` (App.tsx lines 59-102).  Guard: a blank (trimmed-empty)
input or a pending submission returns immediately.  Otherwise the user
turn is appended and the loading flag set; the generation result is
reconciled step by step, any thrown step jumping to the catch block
which appends the fixed apology turn; `finally` clears the loading
flag on every path. -/
def handleSend (st : AppState) (db : ServerDB) (eff : Effects) : AppState × ServerDB :=
  if jsTrim st.input == "" || st.isLoading then (st, db)
  else
    let userMessage := st.input
    let st1 : AppState :=
      { st with
          input := "",
          isLoading := true,
          messages := st.messages ++ [{ role := .user, content := some userMessage }] }
    match generateDiaryModel eff.backend with
    | .error _ => appendCatch st1 db
    | .ok result =>
      match prefPair result with
      | some kv =>
        if eff.savePrefFails then appendCatch st1 db
        else
          entryAndTurnSteps eff userMessage result
            { st1 with preferences := objSet st1.preferences kv.1 kv.2 }
            (postPreference db kv.1 kv.2)
      | none => entryAndTurnSteps eff userMessage result st1 db

/-- Iterated preference writes against the store. -/
def applyPrefWrites (db : ServerDB) : List (String × String) → ServerDB
  | [] => db
  | w :: ws => applyPrefWrites (postPreference db w.1 w.2) ws

/-- The spec's rendering of the preference block: every preference as
`key: value`, joined by newlines. -/
def specPrefBlock (preferences : List (String × String)) : String :=
  String.intercalate "\n" (preferences.map fun kv => kv.1 ++ ": " ++ kv.2)

/-- The spec's rendering of one past entry. -/
def specEntryRender (e : DiaryEntry) : String :=
  "Past Entry: " ++ e.summary ++ "\nLearning: " ++ e.learning

/-- The spec's history block over the selected recent entries, joined
by blank lines. -/
def specHistoryBlock (recent : List DiaryEntry) : String :=
  String.intercalate "\n\n" (recent.map specEntryRender)

/-- A fresh database: no entries, no preferences. -/
def dbEmpty : ServerDB := ⟨[], 1, 0, []⟩

/-- A benign effects oracle: backend replies with no text, no store
failure. -/
def effOkEmpty : Effects := ⟨.reply .absent, false, false, 0⟩

/-- An example write sequence hitting the key "a" twice. -/
def wsEx : List (String × String) := [("a", "1"), ("b", "2"), ("a", "3")]

/-- An idle app state with the pending input "hello". -/
def stHello : AppState := ⟨[], [], "hello", false, []⟩

/-- A generation result with a truthy summary but no learning. -/
def resultC2 : GenResult := ⟨some "S", none, some "ok", none⟩

/-- A full generation result: summary, learning, chat response, and a
preference pair. -/
def resultSL : GenResult := ⟨some "S", some "L", some "Nice!", some ⟨some "k", some "v"⟩⟩

/-- A generation result with summary and learning but no preference. -/
def resultC4 : GenResult := ⟨some "S", some "L", some "ok", none⟩

/-- Effects delivering `resultC2` with no store failure. -/
def effC2 : Effects := ⟨.reply (.validJson resultC2), false, false, 0⟩

/-- Effects delivering `resultSL` with a rejecting `savePreference`. -/
def effC6 : Effects := ⟨.reply (.validJson resultSL), true, false, 0⟩

/-- Effects delivering `resultC4` with no store failure. -/
def effC4 : Effects := ⟨.reply (.validJson resultC4), false, false, 0⟩

/-- Effects delivering `resultSL` where `savePreference` succeeds but
the subsequent `saveEntry` fetch rejects. -/
def effC6b : Effects := ⟨.reply (.validJson resultSL), false, true, 0⟩

/-! ### Helper lemmas -/

/-- A string whose `isEmpty` test fails is not the empty string. -/
theorem ne_empty_of_isEmpty_false (s : String) (h : s.isEmpty = false) : s ≠ "" := by
  intro hs; rw [hs] at h; exact absurd h (by decide)

/-- A truthy optional string yields a non-empty string under `getD ""`. -/
theorem truthy_getD_ne_empty (o : Option String) (h : truthy o = true) : o.getD "" ≠ "" := by
  match o with
  | none => simp [truthy] at h
  | some s =>
    simp only [truthy, Bool.not_eq_true'] at h
    simpa using ne_empty_of_isEmpty_false s h

/-- A string of whitespace characters trims to the empty string. -/
theorem jsTrim_eq_empty (s : String) (h : ∀ c ∈ s.data, c.isWhitespace) : jsTrim s = "" := by
  unfold jsTrim
  rw [List.dropWhile_eq_nil_iff.mpr h]
  rfl

/-- A preference write does not touch the entries table, the id counter
or the clock. -/
@[simp] theorem postPreference_entries (db : ServerDB) (k v : String) :
    (postPreference db k v).entries = db.entries := rfl

@[simp] theorem postPreference_nextId (db : ServerDB) (k v : String) :
    (postPreference db k v).nextId = db.nextId := rfl

@[simp] theorem postPreference_clock (db : ServerDB) (k v : String) :
    (postPreference db k v).clock = db.clock := rfl

/-- After an upsert, a lookup sees the new value at the written key and
the old table elsewhere. -/
theorem lookup_upsert (l : List (String × String)) (k v k' : String) :
    lookupList (upsertList l k v) k' = if k' = k then some v else lookupList l k' := by
  induction l with
  | nil =>
    by_cases h : k' = k
    · simp [upsertList, lookupList, List.find?, h]
    · have hk : (k == k') = false := beq_eq_false_iff_ne.mpr fun hc => h hc.symm
      simp [upsertList, lookupList, List.find?, h, hk]
  | cons a l ih =>
    by_cases ha : a.1 = k
    · have hfilter : upsertList (a :: l) k v = upsertList l k v := by
        simp [upsertList, List.filter_cons, ha]
      rw [hfilter, ih]
      by_cases h : k' = k
      · simp [h]
      · have hak' : ¬(a.1 = k') := fun hc => h (hc ▸ ha.symm ▸ rfl)
        simp [h, lookupList, List.find?_cons, hak']
    · have hfilter : upsertList (a :: l) k v = a :: upsertList l k v := by
        simp [upsertList, List.filter_cons, ha]
      rw [hfilter]
      by_cases hak' : a.1 = k'
      · have h : ¬(k' = k) := fun hc => ha (hak' ▸ hc)
        simp [lookupList, List.find?_cons, hak', h]
      · simp only [lookupList, List.find?_cons] at *
        have : (a.1 == k') = false := by simpa using hak'
        simp [this, ih, lookupList]

/-- Upserting preserves uniqueness of preference keys. -/
theorem nodupKeys_upsert (l : List (String × String)) (k v : String) (h : nodupKeys l) :
    nodupKeys (upsertList l k v) := by
  unfold nodupKeys upsertList
  rw [List.map_append]
  refine List.Nodup.append (List.Nodup.sublist ((List.filter_sublist l).map Prod.fst) h) (by simp) ?_
  intro x hx
  simp only [List.mem_map, List.mem_filter] at hx
  obtain ⟨kv, ⟨_, hne⟩, rfl⟩ := hx
  simp only [List.map_cons, List.map_nil, List.mem_singleton]
  intro hxk
  rw [hxk] at hne
  simp at hne

/-- One store-level preference write, seen through a lookup. -/
theorem getPreference_postPreference (db : ServerDB) (a b k : String) :
    getPreference (postPreference db a b) k = if k = a then some b else getPreference db k :=
  lookup_upsert db.prefs a b k

/-- When `summary` or `learning` is not truthy the entry step is
skipped and only the assistant turn is appended. -/
theorem entryAndTurnSteps_skip (eff : Effects) (um : String) (r : GenResult)
    (st : AppState) (db : ServerDB)
    (h : (truthy r.summary && truthy r.learning) = false) :
    entryAndTurnSteps eff um r st db =
      ({ st with
          messages := st.messages ++ [⟨.assistant, r.chatResponse,
            if truthy r.summary then some ⟨r.summary, r.learning⟩ else none⟩],
          isLoading := false }, db) := by
  simp [entryAndTurnSteps, h]

/-- When both fields are truthy and the `saveEntry` fetch succeeds, a
new entry is persisted and prepended, and the assistant turn carries
the attached data. -/
theorem entryAndTurnSteps_create (eff : Effects) (um : String) (r : GenResult)
    (st : AppState) (db : ServerDB)
    (h : (truthy r.summary && truthy r.learning) = true)
    (hf : eff.saveEntryFails = false) :
    entryAndTurnSteps eff um r st db =
      ({ st with
          entries := ⟨some db.nextId, um, r.summary.getD "", r.learning.getD "", some eff.now⟩
            :: st.entries,
          messages := st.messages ++ [⟨.assistant, r.chatResponse, some ⟨r.summary, r.learning⟩⟩],
          isLoading := false },
        { db with
            entries := ⟨db.nextId, um, r.summary.getD "", r.learning.getD "", db.clock⟩ :: db.entries,
            nextId := db.nextId + 1,
            clock := db.clock + 1 }) := by
  have hs : truthy r.summary = true := (Bool.and_eq_true _ _ |>.mp h).1
  have hl : truthy r.learning = true := (Bool.and_eq_true _ _ |>.mp h).2
  simp [entryAndTurnSteps, h, hf, hs, hl, postEntry]

/-- When both fields are truthy but the `saveEntry` fetch rejects, the
run falls into the catch block. -/
theorem entryAndTurnSteps_throw (eff : Effects) (um : String) (r : GenResult)
    (st : AppState) (db : ServerDB)
    (h : (truthy r.summary && truthy r.learning) = true)
    (hf : eff.saveEntryFails = true) :
    entryAndTurnSteps eff um r st db = appendCatch st db := by
  simp [entryAndTurnSteps, h, hf]

/-- A string with a non-empty trim is itself non-empty. -/
theorem ne_empty_of_jsTrim_ne_empty (s : String) (h : jsTrim s ≠ "") : s ≠ "" :=
  fun hs => h (by rw [hs]; rfl)

/-- An active run whose generation call throws lands in the catch
block: the apology turn is appended and the store untouched. -/
theorem handleSend_genError (st : AppState) (db : ServerDB) (eff : Effects) (e : GenError)
    (h1 : jsTrim st.input ≠ "") (h2 : st.isLoading = false)
    (hgen : generateDiaryModel eff.backend = .error e) :
    handleSend st db eff =
      ({ st with
          input := "",
          isLoading := false,
          messages := st.messages ++
            [⟨.user, some st.input, none⟩, ⟨.assistant, some apologyText, none⟩] }, db) := by
  have hg : (jsTrim st.input == "") = false := beq_eq_false_iff_ne.mpr h1
  simp [handleSend, hg, h2, hgen, appendCatch]

/-- An active run with no preference pair proceeds directly to the
entry and turn steps. -/
theorem handleSend_ok_none (st : AppState) (db : ServerDB) (eff : Effects) (r : GenResult)
    (h1 : jsTrim st.input ≠ "") (h2 : st.isLoading = false)
    (hgen : generateDiaryModel eff.backend = .ok r)
    (hp : prefPair r = none) :
    handleSend st db eff = entryAndTurnSteps eff st.input r
      { st with
        input := "",
        isLoading := true,
        messages := st.messages ++ [⟨.user, some st.input, none⟩] } db := by
  have hg : (jsTrim st.input == "") = false := beq_eq_false_iff_ne.mpr h1
  simp [handleSend, hg, h2, hgen, hp]

/-- An active run whose preference pair persists successfully updates
both stores before the entry and turn steps. -/
theorem handleSend_prefOk (st : AppState) (db : ServerDB) (eff : Effects) (r : GenResult)
    (kv : String × String)
    (h1 : jsTrim st.input ≠ "") (h2 : st.isLoading = false)
    (hgen : generateDiaryModel eff.backend = .ok r)
    (hp : prefPair r = some kv) (hf : eff.savePrefFails = false) :
    handleSend st db eff = entryAndTurnSteps eff st.input r
      { st with
        input := "",
        isLoading := true,
        preferences := objSet st.preferences kv.1 kv.2,
        messages := st.messages ++ [⟨.user, some st.input, none⟩] }
      (postPreference db kv.1 kv.2) := by
  have hg : (jsTrim st.input == "") = false := beq_eq_false_iff_ne.mpr h1
  simp [handleSend, hg, h2, hgen, hp, hf]

/-- An active run whose `savePreference` fetch rejects lands in the
catch block with the store untouched. -/
theorem handleSend_prefThrow (st : AppState) (db : ServerDB) (eff : Effects) (r : GenResult)
    (kv : String × String)
    (h1 : jsTrim st.input ≠ "") (h2 : st.isLoading = false)
    (hgen : generateDiaryModel eff.backend = .ok r)
    (hp : prefPair r = some kv) (hf : eff.savePrefFails = true) :
    handleSend st db eff =
      ({ st with
          input := "",
          isLoading := false,
          messages := st.messages ++
            [⟨.user, some st.input, none⟩, ⟨.assistant, some apologyText, none⟩] }, db) := by
  have hg : (jsTrim st.input == "") = false := beq_eq_false_iff_ne.mpr h1
  simp [handleSend, hg, h2, hgen, hp, hf, appendCatch]

/-! ### Claim theorems -/

/-- C7: for every sequence of preference writes, a later write with the
same key fully replaces the previous value: a subsequent lookup returns
the value of the most recent write with that key (falling back to the
prior store content when the key was never written), and preference
keys remain unique in the store. -/
theorem c7_last_write_wins (db : ServerDB) (ws : List (String × String)) (k : String)
    (h : nodupKeys db.prefs) :
    getPreference (applyPrefWrites db ws) k
      = ((ws.reverse.find? fun w => w.1 == k).map (·.2)).or (getPreference db k)
    ∧ nodupKeys (applyPrefWrites db ws).prefs := by
  induction ws generalizing db with
  | nil => exact ⟨by simp [applyPrefWrites], h⟩
  | cons w ws ih =>
    have hdb' : nodupKeys (postPreference db w.1 w.2).prefs :=
      nodupKeys_upsert db.prefs w.1 w.2 h
    obtain ⟨e1, e2⟩ := ih (postPreference db w.1 w.2) hdb'
    refine ⟨?_, e2⟩
    rw [show applyPrefWrites db (w :: ws) = applyPrefWrites (postPreference db w.1 w.2) ws from rfl,
      e1, List.reverse_cons, List.find?_append]
    cases hf : List.find? (fun w => w.1 == k) ws.reverse with
    | some x => simp [hf]
    | none =>
      simp only [hf, Option.none_or, Option.map_none']
      rw [getPreference_postPreference]
      by_cases hk : k = w.1
      · have hb : (w.1 == k) = true := by simpa using hk.symm
        simp [List.find?, hb, hk]
      · have hb : (w.1 == k) = false := beq_eq_false_iff_ne.mpr fun hc => hk hc.symm
        simp [List.find?, hb, hk]

theorem c7_last_write_wins_witness :
    nodupKeys dbEmpty.prefs ∧
      (getPreference (applyPrefWrites dbEmpty wsEx) "a"
          = ((wsEx.reverse.find? fun w => w.1 == "a").map (·.2)).or (getPreference dbEmpty "a")
        ∧ nodupKeys (applyPrefWrites dbEmpty wsEx).prefs) :=
  ⟨by simp [nodupKeys, dbEmpty], c7_last_write_wins dbEmpty wsEx "a" (by simp [nodupKeys, dbEmpty])⟩

/-- C9: while one submission is pending (`isLoading` is set), a second
`handleSend` is rejected by the guard and changes nothing: neither the
app state nor the store. -/
theorem c9_pending_submit_rejected (st : AppState) (db : ServerDB) (eff : Effects)
    (h : st.isLoading = true) : handleSend st db eff = (st, db) := by
  simp [handleSend, h]

theorem c9_pending_submit_rejected_witness :
    (AppState.mk [] [] "more text" true []).isLoading = true ∧
      handleSend ⟨[], [], "more text", true, []⟩ dbEmpty effOkEmpty
        = (⟨[], [], "more text", true, []⟩, dbEmpty) :=
  ⟨rfl, c9_pending_submit_rejected _ _ _ rfl⟩

/-- C10: a submission whose input is empty or all-whitespace is a
complete no-op: no user turn appended, no generation call reflected, no
store write — the app state and the store are returned unchanged. -/
theorem c10_blank_input_noop (st : AppState) (db : ServerDB) (eff : Effects)
    (h : st.input = "" ∨ ∀ c ∈ st.input.data, c.isWhitespace) :
    handleSend st db eff = (st, db) := by
  have ht : jsTrim st.input = "" := by
    rcases h with h | h
    · rw [h]; rfl
    · exact jsTrim_eq_empty _ h
  simp [handleSend, ht]

theorem c10_blank_input_noop_witness :
    ((" \t \n" : String) = "" ∨ ∀ c ∈ (" \t \n" : String).data, c.isWhitespace) ∧
      handleSend ⟨[], [], " \t \n", false, []⟩ dbEmpty effOkEmpty
        = (⟨[], [], " \t \n", false, []⟩, dbEmpty) :=
  ⟨Or.inr (by decide), c10_blank_input_noop _ _ _ (Or.inr (by decide))⟩

/-- C1 counterexample: with input "hello" and a generation result equal
to the empty object (absent `chatResponse`), the appended assistant
turn has `content = none` — not the fixed apology text the claim
requires. -/
theorem c1_counterexample :
    (handleSend stHello dbEmpty effOkEmpty).1.messages
        = [⟨.user, some "hello", none⟩, ⟨.assistant, none, none⟩]
    ∧ (handleSend stHello dbEmpty effOkEmpty).1.messages.getLast?
        ≠ some ⟨.assistant, some apologyText, none⟩ := by
  decide

/-- C1 (amended): when generation succeeds but `chatResponse` is absent
or empty (and the result carries no truthy summary and no preference
pair), the engine appends an assistant turn whose content is that
absent or empty `chatResponse` — which is never the fixed apology text
— and creates no diary entry and no preference update; the apology
turn is reserved for the path where the generation call throws. -/
theorem c1_empty_chatResponse_behavior (st : AppState) (db : ServerDB) (eff : Effects)
    (r : GenResult)
    (h1 : jsTrim st.input ≠ "") (h2 : st.isLoading = false)
    (hgen : generateDiaryModel eff.backend = .ok r)
    (hc : truthy r.chatResponse = false)
    (hs : truthy r.summary = false)
    (hp : prefPair r = none) :
    handleSend st db eff =
      ({ st with
          input := "",
          isLoading := false,
          messages := st.messages ++
            [⟨.user, some st.input, none⟩, ⟨.assistant, r.chatResponse, none⟩] }, db)
    ∧ r.chatResponse ≠ some apologyText := by
  constructor
  · rw [handleSend_ok_none st db eff r h1 h2 hgen hp,
      entryAndTurnSteps_skip _ _ _ _ _ (by simp [hs])]
    simp [hs]
  · intro hcon
    rw [hcon] at hc
    exact absurd hc (by decide)

theorem c1_empty_chatResponse_behavior_witness :
    (jsTrim stHello.input ≠ "" ∧ stHello.isLoading = false
      ∧ generateDiaryModel effOkEmpty.backend = .ok emptyGenResult
      ∧ truthy emptyGenResult.chatResponse = false
      ∧ truthy emptyGenResult.summary = false
      ∧ prefPair emptyGenResult = none) ∧
    (handleSend stHello dbEmpty effOkEmpty =
        ({ stHello with
            input := "",
            isLoading := false,
            messages := stHello.messages ++
              [⟨.user, some stHello.input, none⟩,
                ⟨.assistant, emptyGenResult.chatResponse, none⟩] }, dbEmpty)
      ∧ emptyGenResult.chatResponse ≠ some apologyText) :=
  ⟨⟨by decide, rfl, rfl, rfl, rfl, rfl⟩,
    c1_empty_chatResponse_behavior stHello dbEmpty effOkEmpty emptyGenResult
      (by decide) rfl rfl rfl rfl rfl⟩

/-- C2 counterexample: a generation result with a truthy `summary` but
no `learning` creates no entry, yet the assistant turn still carries an
attached record — refuting "attached if and only if the entry-creation
step executed". -/
theorem c2_counterexample :
    (handleSend stHello dbEmpty effC2).2.entries = []
    ∧ (handleSend stHello dbEmpty effC2).1.messages.getLast?
        = some ⟨.assistant, some "ok", some ⟨some "S", none⟩⟩ := by
  decide

/-- C2 (amended): the assistant turn carries
`attachedRecord = {summary, learning}` if and only if `summary` is
non-empty, regardless of `learning`; entry creation additionally
requires a non-empty `learning`, so the attached record can be present
when no entry was created. -/
theorem c2_attachedRecord_iff_summary (st : AppState) (db : ServerDB) (eff : Effects)
    (r : GenResult)
    (h1 : jsTrim st.input ≠ "") (h2 : st.isLoading = false)
    (hgen : generateDiaryModel eff.backend = .ok r)
    (hpf : eff.savePrefFails = false) (hef : eff.saveEntryFails = false) :
    (handleSend st db eff).1.messages.getLast? =
        some ⟨.assistant, r.chatResponse,
          if truthy r.summary then some ⟨r.summary, r.learning⟩ else none⟩
    ∧ (handleSend st db eff).2.entries.length =
        db.entries.length +
          (if (truthy r.summary && truthy r.learning) = true then 1 else 0) := by
  cases hp : prefPair r with
  | none =>
    rw [handleSend_ok_none st db eff r h1 h2 hgen hp]
    cases hT : (truthy r.summary && truthy r.learning) with
    | false =>
      rw [entryAndTurnSteps_skip _ _ _ _ _ hT]
      constructor
      · simp [List.getLast?_concat]
      · simp [hT]
    | true =>
      have hs : truthy r.summary = true := (Bool.and_eq_true _ _ |>.mp hT).1
      rw [entryAndTurnSteps_create _ _ _ _ _ hT hef]
      constructor
      · simp [List.getLast?_concat, hs]
      · simp [hT]
  | some kv =>
    rw [handleSend_prefOk st db eff r kv h1 h2 hgen hp hpf]
    cases hT : (truthy r.summary && truthy r.learning) with
    | false =>
      rw [entryAndTurnSteps_skip _ _ _ _ _ hT]
      constructor
      · simp [List.getLast?_concat]
      · simp [hT]
    | true =>
      have hs : truthy r.summary = true := (Bool.and_eq_true _ _ |>.mp hT).1
      rw [entryAndTurnSteps_create _ _ _ _ _ hT hef]
      constructor
      · simp [List.getLast?_concat, hs]
      · simp [hT]

theorem c2_attachedRecord_iff_summary_witness :
    (jsTrim stHello.input ≠ "" ∧ generateDiaryModel effC2.backend = .ok resultC2
      ∧ effC2.savePrefFails = false ∧ effC2.saveEntryFails = false) ∧
    ((handleSend stHello dbEmpty effC2).1.messages.getLast? =
        some ⟨.assistant, resultC2.chatResponse,
          if truthy resultC2.summary then some ⟨resultC2.summary, resultC2.learning⟩ else none⟩
      ∧ (handleSend stHello dbEmpty effC2).2.entries.length =
          dbEmpty.entries.length +
            (if (truthy resultC2.summary && truthy resultC2.learning) = true then 1 else 0)) :=
  ⟨⟨by decide, rfl, rfl, rfl⟩,
    c2_attachedRecord_iff_summary stHello dbEmpty effC2 resultC2 (by decide) rfl rfl rfl rfl⟩

/-- C3 counterexample: on invalid-JSON response text the client throws
a parse error (it does not return the empty object), and a parsed
object violating the required-field constraint (no `chatResponse`) is
returned as parsed, not replaced by the empty object. -/
theorem c3_counterexample :
    parseGenResponse .invalidJson = .error .parseError
    ∧ (Except.error .parseError : Except GenError GenResult) ≠ .ok emptyGenResult
    ∧ parseGenResponse (.validJson ⟨some "x", none, none, none⟩)
        = .ok ⟨some "x", none, none, none⟩
    ∧ (⟨some "x", none, none, none⟩ : GenResult) ≠ emptyGenResult :=
  ⟨rfl, fun h => Except.noConfusion h, rfl, by decide⟩

/-- C3 (amended): only an absent or empty response text makes the
client return the empty object; invalid JSON propagates a parse failure
to the caller, and a response that parses is returned as parsed with no
required-field validation. -/
theorem c3_parse_policy (r : GenResult) :
    parseGenResponse .absent = .ok emptyGenResult
    ∧ parseGenResponse .emptyStr = .ok emptyGenResult
    ∧ parseGenResponse .invalidJson = .error .parseError
    ∧ parseGenResponse (.validJson r) = .ok r :=
  ⟨rfl, rfl, rfl, rfl⟩

/-- C4: in a run where both `summary` and `learning` are non-empty (and
no store fetch rejects), exactly one new entry is created, with
`content` equal to the raw user message, and a subsequent `listEntries`
returns it as the most recent entry; when either field is empty, no
entry is created. -/
theorem c4_entry_creation (st : AppState) (db : ServerDB) (eff : Effects) (r : GenResult)
    (h1 : jsTrim st.input ≠ "") (h2 : st.isLoading = false)
    (hgen : generateDiaryModel eff.backend = .ok r)
    (hpf : eff.savePrefFails = false) (hef : eff.saveEntryFails = false) :
    ((truthy r.summary && truthy r.learning) = true →
      getEntries (handleSend st db eff).2 =
        ⟨db.nextId, st.input, r.summary.getD "", r.learning.getD "", db.clock⟩ :: getEntries db)
    ∧ ((truthy r.summary && truthy r.learning) = false →
      getEntries (handleSend st db eff).2 = getEntries db) := by
  constructor
  · intro hT
    cases hp : prefPair r with
    | none =>
      rw [handleSend_ok_none st db eff r h1 h2 hgen hp,
        entryAndTurnSteps_create _ _ _ _ _ hT hef]
      simp [getEntries]
    | some kv =>
      rw [handleSend_prefOk st db eff r kv h1 h2 hgen hp hpf,
        entryAndTurnSteps_create _ _ _ _ _ hT hef]
      simp [getEntries]
  · intro hT
    cases hp : prefPair r with
    | none =>
      rw [handleSend_ok_none st db eff r h1 h2 hgen hp,
        entryAndTurnSteps_skip _ _ _ _ _ hT]
    | some kv =>
      rw [handleSend_prefOk st db eff r kv h1 h2 hgen hp hpf,
        entryAndTurnSteps_skip _ _ _ _ _ hT]
      simp [getEntries]

theorem c4_entry_creation_witness :
    ((truthy resultC4.summary && truthy resultC4.learning) = true
      ∧ jsTrim stHello.input ≠ ""
      ∧ generateDiaryModel effC4.backend = .ok resultC4) ∧
    getEntries (handleSend stHello dbEmpty effC4).2 =
      ⟨dbEmpty.nextId, stHello.input, resultC4.summary.getD "", resultC4.learning.getD "",
        dbEmpty.clock⟩ :: getEntries dbEmpty :=
  ⟨⟨rfl, by decide, rfl⟩,
    (c4_entry_creation stHello dbEmpty effC4 resultC4 (by decide) rfl rfl rfl rfl).1 rfl⟩

/-- C5: the Context Builder renders every preference as "key: value"
joined by newlines, and the history block as the first three entries of
the most-recent-first history (independent of anything beyond the
third), each as "Past Entry: summary\nLearning: learning" joined by
blank lines; with no entries the history block is empty.  Both are pure
functions of their inputs. -/
theorem c5_context_builder (prefs : List (String × String)) (history : List DiaryEntry)
    (e1 e2 e3 : DiaryEntry) (rest : List DiaryEntry) :
    prefString prefs = specPrefBlock prefs
    ∧ historyString history = specHistoryBlock (history.take 3)
    ∧ historyString (e1 :: e2 :: e3 :: rest) = specHistoryBlock [e1, e2, e3]
    ∧ historyString ([] : List DiaryEntry) = "" := by
  refine ⟨rfl, rfl, ?_, rfl⟩
  simp [historyString, specHistoryBlock, specEntryRender]

/-- C6 counterexample: with a rejecting `savePreference` fetch and a
generation result whose `chatResponse` is "Nice!", the run ends in the
apology turn, no message carries the chat response, and the entry step
never runs — a failed store write does block the chat response. -/
theorem c6_counterexample :
    (handleSend stHello dbEmpty effC6).1.messages
        = [⟨.user, some "hello", none⟩, ⟨.assistant, some apologyText, none⟩]
    ∧ (handleSend stHello dbEmpty effC6).2.entries = []
    ∧ (handleSend stHello dbEmpty effC6).1.messages.getLast?
        ≠ some ⟨.assistant, some "Nice!", some ⟨some "S", some "L"⟩⟩ := by
  decide

/-- C6 (amended): a store write that rejects aborts the remaining
reconciliation steps: the user sees the fixed apology turn instead of
the chat-response turn, and the store is left as it was at the failure
point (no roll-forward); the loading flag is still cleared, so the
session stays usable. -/
theorem c6_store_write_failure_aborts (st : AppState) (db : ServerDB) (eff : Effects)
    (r : GenResult)
    (h1 : jsTrim st.input ≠ "") (h2 : st.isLoading = false)
    (hgen : generateDiaryModel eff.backend = .ok r) :
    (∀ kv, prefPair r = some kv → eff.savePrefFails = true →
      handleSend st db eff =
        ({ st with
            input := "",
            isLoading := false,
            messages := st.messages ++
              [⟨.user, some st.input, none⟩, ⟨.assistant, some apologyText, none⟩] }, db))
    ∧ (prefPair r = none → (truthy r.summary && truthy r.learning) = true →
        eff.saveEntryFails = true →
        handleSend st db eff =
          ({ st with
              input := "",
              isLoading := false,
              messages := st.messages ++
                [⟨.user, some st.input, none⟩, ⟨.assistant, some apologyText, none⟩] }, db))
    ∧ (∀ kv, prefPair r = some kv → eff.savePrefFails = false →
        (truthy r.summary && truthy r.learning) = true →
        eff.saveEntryFails = true →
        handleSend st db eff =
          ({ st with
              input := "",
              isLoading := false,
              preferences := objSet st.preferences kv.1 kv.2,
              messages := st.messages ++
                [⟨.user, some st.input, none⟩, ⟨.assistant, some apologyText, none⟩] },
            postPreference db kv.1 kv.2)) := by
  refine ⟨?_, ?_, ?_⟩
  · intro kv hp hf
    exact handleSend_prefThrow st db eff r kv h1 h2 hgen hp hf
  · intro hp hT hf
    rw [handleSend_ok_none st db eff r h1 h2 hgen hp,
      entryAndTurnSteps_throw _ _ _ _ _ hT hf]
    simp [appendCatch]
  · intro kv hp hpf hT hf
    rw [handleSend_prefOk st db eff r kv h1 h2 hgen hp hpf,
      entryAndTurnSteps_throw _ _ _ _ _ hT hf]
    simp [appendCatch]

theorem c6_store_write_failure_aborts_witness :
    (prefPair resultSL = some ("k", "v") ∧ effC6b.savePrefFails = false
      ∧ (truthy resultSL.summary && truthy resultSL.learning) = true
      ∧ effC6b.saveEntryFails = true ∧ jsTrim stHello.input ≠ "") ∧
      handleSend stHello dbEmpty effC6b =
        ({ stHello with
            input := "",
            isLoading := false,
            preferences := objSet stHello.preferences "k" "v",
            messages := stHello.messages ++
              [⟨.user, some stHello.input, none⟩,
                ⟨.assistant, some apologyText, none⟩] },
          postPreference dbEmpty "k" "v") :=
  ⟨⟨rfl, rfl, rfl, rfl, by decide⟩,
    (c6_store_write_failure_aborts stHello dbEmpty effC6b resultSL (by decide) rfl rfl).2.2
      ("k", "v") rfl rfl rfl rfl⟩

/-- C8 counterexample: the entries store write path itself performs no
validation — a direct `POST /api/entries` with empty content, summary
and learning persists an entry with all three fields empty. -/
theorem c8_counterexample :
    (postEntry dbEmpty "" "" "").1.entries
      = [⟨1, "", "", "", 0⟩] := by
  decide

/-- C8 (amended): every entry the reconciliation pipeline persists has
non-empty `content`, `summary` and `learning` (the invariant holds on
all runs of `handleSend`); the store endpoint itself, however, enforces
nothing, so the invariant is not preserved by arbitrary writes reaching
the store. -/
theorem c8_pipeline_entries_nonempty (st : AppState) (db : ServerDB) (eff : Effects) :
    ∀ e ∈ (handleSend st db eff).2.entries,
      e ∈ db.entries ∨ (e.content ≠ "" ∧ e.summary ≠ "" ∧ e.learning ≠ "") := by
  intro e he
  by_cases hg : (jsTrim st.input == "" || st.isLoading) = true
  · rw [handleSend, if_pos hg] at he
    exact Or.inl he
  · have hsplit := Bool.or_eq_false_iff.mp (Bool.eq_false_iff.mpr hg)
    have h1 : jsTrim st.input ≠ "" := beq_eq_false_iff_ne.mp hsplit.1
    have h2 : st.isLoading = false := hsplit.2
    cases hgen : generateDiaryModel eff.backend with
    | error ge =>
      rw [handleSend_genError st db eff ge h1 h2 hgen] at he
      exact Or.inl he
    | ok r =>
      have hfields : (truthy r.summary && truthy r.learning) = true →
          eff.saveEntryFails = false →
          ∀ db1 : ServerDB, db1.entries = db.entries → db1.nextId = db.nextId →
          ∀ st1 : AppState,
          e ∈ (entryAndTurnSteps eff st.input r st1 db1).2.entries →
          e ∈ db.entries ∨ (e.content ≠ "" ∧ e.summary ≠ "" ∧ e.learning ≠ "") := by
        intro hT hef db1 hdbe hdbn st1 hmem
        rw [entryAndTurnSteps_create _ _ _ _ _ hT hef] at hmem
        simp only [hdbe] at hmem
        rcases List.mem_cons.mp hmem with hnew | hold
        · subst hnew
          refine Or.inr ⟨ne_empty_of_jsTrim_ne_empty _ h1, ?_, ?_⟩
          · exact truthy_getD_ne_empty _ (Bool.and_eq_true _ _ |>.mp hT).1
          · exact truthy_getD_ne_empty _ (Bool.and_eq_true _ _ |>.mp hT).2
        · exact Or.inl hold
      cases hp : prefPair r with
      | none =>
        rw [handleSend_ok_none st db eff r h1 h2 hgen hp] at he
        cases hT : (truthy r.summary && truthy r.learning) with
        | false =>
          rw [entryAndTurnSteps_skip _ _ _ _ _ hT] at he
          exact Or.inl he
        | true =>
          cases hef : eff.saveEntryFails with
          | true =>
            rw [entryAndTurnSteps_throw _ _ _ _ _ hT hef] at he
            exact Or.inl he
          | false =>
            exact hfields hT hef db rfl rfl _ he
      | some kv =>
        cases hpf : eff.savePrefFails with
        | true =>
          rw [handleSend_prefThrow st db eff r kv h1 h2 hgen hp hpf] at he
          exact Or.inl he
        | false =>
          rw [handleSend_prefOk st db eff r kv h1 h2 hgen hp hpf] at he
          cases hT : (truthy r.summary && truthy r.learning) with
          | false =>
            rw [entryAndTurnSteps_skip _ _ _ _ _ hT] at he
            exact Or.inl he
          | true =>
            cases hef : eff.saveEntryFails with
            | true =>
              rw [entryAndTurnSteps_throw _ _ _ _ _ hT hef] at he
              exact Or.inl he
            | false =>
              exact hfields hT hef (postPreference db kv.1 kv.2) rfl rfl _ he

theorem c8_pipeline_entries_nonempty_witness :
    (⟨1, "hello", "S", "L", 0⟩ : StoredEntry) ∈ (handleSend stHello dbEmpty effC4).2.entries ∧
      ((⟨1, "hello", "S", "L", 0⟩ : StoredEntry) ∈ dbEmpty.entries
        ∨ ((⟨1, "hello", "S", "L", 0⟩ : StoredEntry).content ≠ ""
            ∧ (⟨1, "hello", "S", "L", 0⟩ : StoredEntry).summary ≠ ""
            ∧ (⟨1, "hello", "S", "L", 0⟩ : StoredEntry).learning ≠ "")) :=
  ⟨by decide, c8_pipeline_entries_nonempty stHello dbEmpty effC4 ⟨1, "hello", "S", "L", 0⟩ (by decide)⟩

end Diary
